import Mathlib

/-!
Shallow embedding of the blueprint-driven page renderer of the ai-site-agent
repository, and proofs about it.

Embedded code:
  - src/templates/renderer/dynamic_page_renderer.tsx
    (componentMap, getBlueprint, Page, generateStaticParams)
  - src/sites/shahslogistics_co_uk/app/[...slug]/page.tsx
    (DynamicPage, renderComponent, the section/component tree walk)
  - src/sites/shahslogistics_co_uk/components/Placeholder.tsx
    (the fallback component; it reads the componentName prop)

JavaScript particulars that the embedding keeps:
  - an absent value (undefined) is modelled as none, a present one as some;
  - an array is truthy even when empty, so a test written as a bare
    reference to an array variable is true exactly when the value is
    present (some), and the empty string is falsy;
  - Array.prototype.join with separator "/" is modelled by joinSlug;
  - object indexing with a string key is modelled by List.lookup over an
    association list whose order is the insertion order of the object.
-/

namespace SiteAgent

/-- A JSON-like value. Property bags in the blueprint map string keys to
heterogeneous values: strings, numbers, booleans, null, nested arrays and
objects. This models the values of a props field typed
Record of string to unknown in the source. -/
inductive Value where
  | vStr : String → Value
  | vNum : Int → Value
  | vBool : Bool → Value
  | vNull : Value
  | vArr : List Value → Value
  | vObj : List (String × Value) → Value
deriving Repr

/-- A property bag: key/value pairs in written order, as in a JSON object or
the attribute list of a JSX element. The dispatcher never inspects it. -/
abbrev Props := List (String × Value)

/-- Array.prototype.join with separator "/": empty array gives the empty
string, a singleton gives its element, otherwise elements are interleaved
with the separator. -/
def joinSlug : List String → String
  | [] => ""
  | [s] => s
  | s :: t :: rest => s ++ "/" ++ joinSlug (t :: rest)

/-- The interface ComponentData of dynamic_page_renderer.tsx: a component
name (the registry key) and an opaque property bag. -/
structure ComponentData where
  component_name : String
  props : Props
deriving Repr

/-- The interface SiteBlueprint of dynamic_page_renderer.tsx: client name,
industry, and a pages object mapping a page key to the list of components
of that page. -/
structure SiteBlueprint where
  client_name : String
  industry : String
  pages : List (String × List ComponentData)
deriving Repr

/-- The keys of componentMap in dynamic_page_renderer.tsx, lines 19 to 25:
the static registry maps exactly the names HeroSection1, FeatureGrid3 and
ContactForm1 to implementations. -/
def componentMap : List String := ["HeroSection1", "FeatureGrid3", "ContactForm1"]

/-- One renderable node of the output: the name of the implementation the
dispatcher invokes (the registered component, or Placeholder for the
fallback) together with the property bag delivered to it, in JSX attribute
order. The React key pseudo-attribute is not part of the delivered props. -/
structure RenderNode where
  impl : String
  delivered : Props
deriving Repr

/-- The body of the componentsToRender.map callback of Page
(dynamic_page_renderer.tsx, lines 111 to 120): look the component name up in
componentMap; if found, invoke that implementation with the spread of the
component props, otherwise invoke Placeholder with the single attribute
component_name set to the unresolved name. -/
def renderComponent (c : ComponentData) : RenderNode :=
  if componentMap.contains c.component_name then
    ⟨c.component_name, c.props⟩
  else
    ⟨"Placeholder", [("component_name", Value.vStr c.component_name)]⟩

/-- Line 95 of dynamic_page_renderer.tsx: pageKey is params.slug joined with
a slash when params.slug is present, and the literal key home when it is
absent. An empty array is truthy in JavaScript, so a present empty slug is
joined and yields the empty string, not home. -/
def pageKeyOfSlug (slug : Option (List String)) : String :=
  match slug with
  | some s => joinSlug s
  | none => "home"

/-- The outcome of the Page component: either the 404 view (which shows the
missing page key and renders zero component nodes), or the main element
holding the rendered nodes in order. -/
inductive PageResult where
  | notFound (pageKey : String)
  | main (nodes : List RenderNode)
deriving Repr

/-- True exactly on the 404 outcome. -/
def PageResult.isNotFound : PageResult → Bool
  | .notFound _ => true
  | .main _ => false

/-- The Page component of dynamic_page_renderer.tsx, lines 90 to 123, with
the blueprint that getBlueprint returned passed as a parameter: compute the
page key from the slug, read the component list for that key (empty when the
key is absent), return the 404 view when the list is empty and the key is
not home, and otherwise map every component through the registry dispatch. -/
def Page (blueprint : SiteBlueprint) (slug : Option (List String)) : PageResult :=
  let pageKey := pageKeyOfSlug slug
  let componentsToRender := (blueprint.pages.lookup pageKey).getD []
  if componentsToRender.length = 0 ∧ pageKey ≠ "home" then
    PageResult.notFound pageKey
  else
    PageResult.main (componentsToRender.map renderComponent)

/-- generateStaticParams of dynamic_page_renderer.tsx, lines 127 to 134: for
every key of the pages object, emit the slug the page is built under: the
empty list for the key home, the singleton of the key otherwise. -/
def generateStaticParams (blueprint : SiteBlueprint) : List (List String) :=
  blueprint.pages.map (fun p => if p.1 = "home" then [] else [p.1])

/-- The effectful surroundings of getBlueprint, made explicit: the value of
the SITE_DIRECTORY environment variable (none when unset), the result of
reading blueprint.json of a given site directory (the file path construction
through the working directory is abstracted: the file is identified by the
site directory it belongs to), and the JSON parser together with the
unchecked cast to SiteBlueprint. -/
structure BlueprintEnv where
  siteDirectory : Option String
  readBlueprintFile : String → Except String String
  parseJSON : String → Except String SiteBlueprint

/-- The blueprint returned on lines 59 to 68 of dynamic_page_renderer.tsx
when SITE_DIRECTORY is missing: a home page holding a single component named
Placeholder whose props name the configuration error. -/
def configErrorBlueprint : SiteBlueprint :=
  ⟨"Configuration Error", "No Site Specified",
    [("home",
      [⟨"Placeholder",
        [("component_name",
          Value.vStr "FATAL ERROR: SITE_DIRECTORY environment variable is not set. Please configure the server.")]⟩])]⟩

/-- The fallback blueprint returned on lines 80 to 84 of
dynamic_page_renderer.tsx when reading or parsing blueprint.json fails: an
empty home page. -/
def fallbackBlueprint (siteDirectory : String) : SiteBlueprint :=
  ⟨"Error", "Could not load site: " ++ siteDirectory, [("home", [])]⟩

/-- getBlueprint of dynamic_page_renderer.tsx, lines 51 to 86. The guard is
the JavaScript falsiness test on siteDirectory, true when the variable is
unset and also when it is set to the empty string. The try block covers both
the file read and JSON.parse; any failure takes the catch branch. -/
def getBlueprint (env : BlueprintEnv) : SiteBlueprint :=
  match env.siteDirectory with
  | none => configErrorBlueprint
  | some siteDirectory =>
    if siteDirectory = "" then configErrorBlueprint
    else
      match env.readBlueprintFile siteDirectory with
      | .error _ => fallbackBlueprint siteDirectory
      | .ok jsonData =>
        match env.parseJSON jsonData with
        | .error _ => fallbackBlueprint siteDirectory
        | .ok blueprint => blueprint

/-- One request pass of the renderer, with the blueprint state it leaves
behind made explicit. The body of Page (lines 90 to 123) only reads the
blueprint: the operations used on it are property access, object indexing,
the or-else default, length, and map, none of which writes to its receiver,
so the pass returns the blueprint it was given. -/
def resolvePass (blueprint : SiteBlueprint) (slug : Option (List String)) :
    PageResult × SiteBlueprint :=
  (Page blueprint slug, blueprint)

/-- The interface Component of the site page
src/sites/shahslogistics_co_uk/app/[...slug]/page.tsx: name, opaque props,
and an identifier used as the React key. -/
structure BComponent where
  component_name : String
  props : Props
  id : String
deriving Repr

/-- The interface Section of the site page: name, optional heading, ordered
components, identifier. -/
structure BSection where
  section_name : String
  heading : Option String
  components : List BComponent
  id : String
deriving Repr

/-- The interface Page of the site page (renamed to avoid clashing with the
template renderer): name, route path, ordered sections, identifier. -/
structure BPage where
  page_name : String
  page_path : String
  sections : List BSection
  id : String
deriving Repr

/-- The case labels of the switch in renderComponent of
src/sites/shahslogistics_co_uk/app/[...slug]/page.tsx, lines 1091 to 1177,
in source order: the names that dispatch to a dedicated implementation.
Every other name falls to the default branch. -/
def dynComponentCases : List String :=
  ["Footer Navigation", "Route Optimization", "Login", "Login Form Heading",
   "Customer Review 2", "Forgot Password", "Pricing Main Heading",
   "Main Hero Heading", "Testimonial Heading",
   "Shahs Logistics Logo (Dashboard)", "Billing Cycle Toggle",
   "Customer Review 1", "Email Input Field", "Features Main Heading",
   "Hero Subtitle", "Social Links", "Real-time Tracking", "Live Tracking Map",
   "User Profile", "Notifications", "Pricing Subtitle", "Features Subtitle",
   "Inventory Management", "Shahs Logistics Logo", "Total Shipments Card",
   "Advanced Reporting", "Password Input Field", "Recent Shipments",
   "Background Image", "Sign Up", "Illustration of Features",
   "Main Navigation", "Dashboard Sidebar Nav", "Basic Plan", "Pro Plan",
   "Book a Demo", "Copyright Info", "Get Started", "Submit Login",
   "Dashboard Main Title", "Enterprise Plan"]

/-- The renderComponent helper of the site page: a matched case invokes the
dedicated implementation with the spread of the component props; the default
branch invokes Placeholder with the componentName attribute first and then
the spread of the component props. -/
def dynRenderComponent (c : BComponent) : RenderNode :=
  if dynComponentCases.contains c.component_name then
    ⟨c.component_name, c.props⟩
  else
    ⟨"Placeholder", ("componentName", Value.vStr c.component_name) :: c.props⟩

/-- One rendered section of the site page: the section element keeps the
identifier and optional heading and holds the nodes of its components. -/
structure SectionNode where
  id : String
  heading : Option String
  nodes : List RenderNode
deriving Repr

/-- The JSX of the site page, lines 1180 to 1195: every section of the found
page, in order, becomes a section element whose components are dispatched in
order through renderComponent. -/
def renderSection (s : BSection) : SectionNode :=
  ⟨s.id, s.heading, s.components.map dynRenderComponent⟩

/-- The full section walk of the found page. -/
def dynRenderPage (p : BPage) : List SectionNode :=
  p.sections.map renderSection

/-- Line 1071 of the site page: pagePath is a slash followed by the joined
slug when the slug is present and nonempty, and the root path otherwise. -/
def pagePathOfSlug (slug : Option (List String)) : String :=
  match slug with
  | some s => if s.length > 0 then "/" ++ joinSlug s else "/"
  | none => "/"

/-- The outcome of the DynamicPage component of the site page: the 404 view
(showing the missing path, rendering no section), or the rendered page. -/
inductive DynResult where
  | notFound (pagePath : String)
  | page (sections : List SectionNode)
deriving Repr

/-- DynamicPage of src/sites/shahslogistics_co_uk/app/[...slug]/page.tsx,
lines 1066 to 1196, with the pages of the hard-coded siteBlueprint constant
passed as a parameter: compute the page path from the slug, find the first
page with that path, return the 404 view when none exists, and otherwise
render every section in order. -/
def DynamicPage (pages : List BPage) (slug : Option (List String)) : DynResult :=
  let pagePath := pagePathOfSlug slug
  match pages.find? (fun p => p.page_path == pagePath) with
  | none => DynResult.notFound pagePath
  | some page => DynResult.page (dynRenderPage page)

/-- One generated page of the contentlayer collection used by
src/sites/shahslogistics_co_uk/app/[slug]/page.tsx: a slug, a title, and the
compiled MDX body code. -/
structure MDXPage where
  slug : String
  title : String
  body_code : String
deriving Repr

/-- The call replace of a string with the anchored pattern of one leading
slash and the empty replacement: it removes a single leading slash when
present and leaves the string unchanged otherwise. -/
def stripLeadingSlash (s : String) : String :=
  match s.data with
  | '/' :: rest => ⟨rest⟩
  | _ => s

/-- What the Page component of [slug]/page.tsx produces when it succeeds:
the title heading and the MDX content built from the body code. -/
structure SlugPageView where
  title : String
  body_code : String
deriving Repr

/-- The Page component of src/sites/shahslogistics_co_uk/app/[slug]/page.tsx,
lines 10 to 19, with the contentlayer collection passed as a parameter: find
the first page whose slug, stripped of its leading slash, equals the
requested slug. The body is then read from the found page without any guard,
so when no page matches, the property access on an undefined value throws a
TypeError; the thrown exception is the error case here. -/
def slugPage (allPages : List MDXPage) (slug : String) : Except String SlugPageView :=
  match allPages.find? (fun p => stripLeadingSlash p.slug == slug) with
  | none => .error ("TypeError: cannot read body of undefined")
  | some page => .ok ⟨page.title, page.body_code⟩

/-! Theorems about the claims. -/

/-- C1: for every component whose name is not a key of the static registry,
resolution yields a Placeholder node carrying that exact unresolved name (as
the value of the component_name attribute in the template renderer, and of
the componentName attribute in the site renderer), and resolution continues
to the remaining components and sections: the dispatch of a list that
surrounds the unknown component splits around the placeholder node, with the
preceding and following components rendered as usual, and every remaining
section of the page is still rendered. -/
theorem unknown_name_placeholder_continues
    (pre post : List ComponentData) (c : ComponentData)
    (cPre cPost : List BComponent) (d : BComponent)
    (sPre sPost : List BSection) (s : BSection)
    (pn pp pid : String)
    (h1 : componentMap.contains c.component_name = false)
    (h2 : dynComponentCases.contains d.component_name = false) :
    (pre ++ c :: post).map renderComponent
        = pre.map renderComponent
          ++ ⟨"Placeholder", [("component_name", Value.vStr c.component_name)]⟩
          :: post.map renderComponent
    ∧ (cPre ++ d :: cPost).map dynRenderComponent
        = cPre.map dynRenderComponent
          ++ ⟨"Placeholder", ("componentName", Value.vStr d.component_name) :: d.props⟩
          :: cPost.map dynRenderComponent
    ∧ dynRenderPage ⟨pn, pp, sPre ++ s :: sPost, pid⟩
        = sPre.map renderSection ++ renderSection s :: sPost.map renderSection := by
  have h1m : c.component_name ∉ componentMap := by simpa using h1
  have h2m : d.component_name ∉ dynComponentCases := by simpa using h2
  refine ⟨?_, ?_, ?_⟩
  · simp [renderComponent, h1m]
  · simp [dynRenderComponent, h2m]
  · simp [dynRenderPage]

/-- Witness for C1 at concrete inputs: the name Mystery is not registered in
the template registry and the name Widget is not a case of the site switch;
both render as Placeholder nodes carrying the exact name while the
neighbouring registered components still render. -/
theorem unknown_name_placeholder_continues_witness :
    componentMap.contains ("Mystery") = false
    ∧ dynComponentCases.contains ("Widget") = false
    ∧ (([⟨"Mystery", []⟩, ⟨"HeroSection1", []⟩] : List ComponentData).map renderComponent
          = [⟨"Placeholder", [("component_name", Value.vStr ("Mystery"))]⟩,
             ⟨"HeroSection1", []⟩]
      ∧ ([⟨"Widget", [], "c1"⟩, ⟨"Sign Up", [], "c2"⟩] : List BComponent).map dynRenderComponent
          = [⟨"Placeholder", [("componentName", Value.vStr ("Widget"))]⟩,
             ⟨"Sign Up", []⟩]
      ∧ dynRenderPage ⟨"P", "/", [⟨"S", none, [⟨"Widget", [], "c1"⟩], "s1"⟩], "p1"⟩
          = [⟨"s1", none, [⟨"Placeholder", [("componentName", Value.vStr ("Widget"))]⟩]⟩]) :=
  ⟨rfl, rfl,
    unknown_name_placeholder_continues [] [⟨"HeroSection1", []⟩] ⟨"Mystery", []⟩
      [] [⟨"Sign Up", [], "c2"⟩] ⟨"Widget", [], "c1"⟩
      [] [] ⟨"S", none, [⟨"Widget", [], "c1"⟩], "s1"⟩ "P" "/" "p1" rfl rfl⟩

/-- C2 counterexample, in two parts. First, the contentlayer renderer of
[slug]/page.tsx reads the body of the find result without a guard: a
requested slug matching no page of the collection throws a TypeError, so
resolution there throws rather than yielding a not-found outcome. Second,
the template renderer guards its 404 view by the key not being home: the
root request against a blueprint whose only page key is about has lookup key
home, which matches no page, yet Page returns the main outcome (with an
empty node list), not the 404 outcome. Both parts refute the claim as
stated at explicit inputs. -/
theorem missing_page_notfound_counterexample :
    slugPage [⟨"/about", "About", "code1"⟩] ("missing")
        = .error ("TypeError: cannot read body of undefined")
    ∧ (⟨"Acme", "logistics", [("about", [⟨"HeroSection1", []⟩])]⟩ :
        SiteBlueprint).pages.lookup (pageKeyOfSlug none) = none
    ∧ Page ⟨"Acme", "logistics", [("about", [⟨"HeroSection1", []⟩])]⟩ none
        = PageResult.main []
    ∧ (Page ⟨"Acme", "logistics", [("about", [⟨"HeroSection1", []⟩])]⟩ none).isNotFound
        = false :=
  ⟨rfl, rfl, rfl, rfl⟩

/-- C2 amended: in the template renderer, every requested path whose lookup
key is not the home key and matches no page yields the 404 outcome (which
carries the missing key and renders zero component nodes) without throwing,
and the home key is the one exception, where an empty main view is rendered
instead; the contentlayer renderer of [slug]/page.tsx, by contrast, throws a
TypeError on every requested slug matching no page of its collection, and
produces no not-found outcome at all. -/
theorem missing_page_notfound_amended
    (bp : SiteBlueprint) (slug : Option (List String))
    (allPages : List MDXPage) (s : String)
    (h1 : bp.pages.lookup (pageKeyOfSlug slug) = none)
    (h2 : pageKeyOfSlug slug ≠ "home")
    (h3 : allPages.find? (fun p => stripLeadingSlash p.slug == s) = none) :
    Page bp slug = PageResult.notFound (pageKeyOfSlug slug)
    ∧ slugPage allPages s = .error ("TypeError: cannot read body of undefined") := by
  constructor
  · simp [Page, h1, h2]
  · simp [slugPage, h3]

/-- Witness for the amended C2: requesting the path missing against a
blueprint that only has the page about yields the 404 outcome of the
template renderer, and requesting the same slug against a contentlayer
collection that only has the page about throws. -/
theorem missing_page_notfound_amended_witness :
    (⟨"Acme", "logistics", [("about", [⟨"HeroSection1", []⟩])]⟩ :
        SiteBlueprint).pages.lookup (pageKeyOfSlug (some ["missing"])) = none
    ∧ Page ⟨"Acme", "logistics", [("about", [⟨"HeroSection1", []⟩])]⟩ (some ["missing"])
        = PageResult.notFound ("missing")
    ∧ slugPage [⟨"/about", "About", "code1"⟩] ("missing")
        = .error ("TypeError: cannot read body of undefined") :=
  ⟨rfl,
   (missing_page_notfound_amended
      ⟨"Acme", "logistics", [("about", [⟨"HeroSection1", []⟩])]⟩ (some ["missing"])
      [⟨"/about", "About", "code1"⟩] "missing" rfl (by decide) rfl).1,
   (missing_page_notfound_amended
      ⟨"Acme", "logistics", [("about", [⟨"HeroSection1", []⟩])]⟩ (some ["missing"])
      [⟨"/about", "About", "code1"⟩] "missing" rfl (by decide) rfl).2⟩

/-- C3 counterexample: the key terms is present in the blueprint (it maps
to a page with an empty component list), so the path terms maps to a page
of the blueprint, yet the template renderer answers it with the 404 view
instead of returning that page content (its zero declared components):
resolution does not return the declared render of every page of the
blueprint. -/
theorem declared_order_counterexample :
    (⟨"Acme", "logistics", [("terms", [])]⟩ :
        SiteBlueprint).pages.lookup ("terms") = some []
    ∧ Page ⟨"Acme", "logistics", [("terms", [])]⟩ (some ["terms"])
        = PageResult.notFound ("terms") :=
  ⟨rfl, rfl⟩

/-- C3 amended: resolution preserves declared order on every page it
renders. In the site renderer, every found page renders exactly the
pointwise image of its section list, every section holding the pointwise
image of its component list, so no node is reordered, sorted, inserted or
deleted. In the template renderer the same holds for every page that takes
the render branch, that is, whose component list is nonempty or whose key
is home; a present non-home page with an empty component list is instead
answered with the 404 view (the edge stated by claim C10). -/
theorem declared_order_preserved
    (bp : SiteBlueprint) (slug : Option (List String)) (comps : List ComponentData)
    (pages : List BPage) (p : BPage)
    (h1 : bp.pages.lookup (pageKeyOfSlug slug) = some comps)
    (h2 : ¬(comps.length = 0 ∧ pageKeyOfSlug slug ≠ "home"))
    (h3 : pages.find? (fun q => q.page_path == pagePathOfSlug slug) = some p) :
    Page bp slug = PageResult.main (comps.map renderComponent)
    ∧ DynamicPage pages slug
        = DynResult.page (p.sections.map
            (fun s => ⟨s.id, s.heading, s.components.map dynRenderComponent⟩)) := by
  constructor
  · simp only [Page, h1, Option.getD_some]
    rw [if_neg h2]
  · simp only [DynamicPage, h3, dynRenderPage]
    rfl

/-- Witness for C3: a concrete page about with a registered and an
unregistered component in the template renderer, and a concrete two-section
page in the site renderer; both outputs list the nodes in declared order. -/
theorem declared_order_preserved_witness :
    Page ⟨"Acme", "logistics",
        [("about", [⟨"HeroSection1", [("x", Value.vStr ("1"))]⟩, ⟨"Mystery", []⟩])]⟩
        (some ["about"])
      = PageResult.main
          [⟨"HeroSection1", [("x", Value.vStr ("1"))]⟩,
           ⟨"Placeholder", [("component_name", Value.vStr ("Mystery"))]⟩]
    ∧ DynamicPage
        [⟨"About", "/about",
          [⟨"S1", some ("H1"), [⟨"Login", [], "c1"⟩], "s1"⟩,
           ⟨"S2", none, [⟨"Widget", [], "c2"⟩], "s2"⟩], "p1"⟩]
        (some ["about"])
      = DynResult.page
          [⟨"s1", some ("H1"), [⟨"Login", []⟩]⟩,
           ⟨"s2", none, [⟨"Placeholder", [("componentName", Value.vStr ("Widget"))]⟩]⟩] :=
  declared_order_preserved
    ⟨"Acme", "logistics",
      [("about", [⟨"HeroSection1", [("x", Value.vStr ("1"))]⟩, ⟨"Mystery", []⟩])]⟩
    (some ["about"])
    [⟨"HeroSection1", [("x", Value.vStr ("1"))]⟩, ⟨"Mystery", []⟩]
    [⟨"About", "/about",
      [⟨"S1", some ("H1"), [⟨"Login", [], "c1"⟩], "s1"⟩,
       ⟨"S2", none, [⟨"Widget", [], "c2"⟩], "s2"⟩], "p1"⟩]
    ⟨"About", "/about",
      [⟨"S1", some ("H1"), [⟨"Login", [], "c1"⟩], "s1"⟩,
       ⟨"S2", none, [⟨"Widget", [], "c2"⟩], "s2"⟩], "p1"⟩
    rfl (by decide) rfl

/-- C4 counterexample: an empty slug segment list is a truthy JavaScript
array, so it is joined and normalizes to the empty string, not to the home
key; requesting it against a blueprint that does have a home page yields the
404 outcome instead of resolving the home page. -/
theorem empty_slug_home_counterexample :
    pageKeyOfSlug (some []) = ""
    ∧ ("" : String) ≠ "home"
    ∧ Page ⟨"Acme", "logistics", [("home", [⟨"HeroSection1", []⟩])]⟩ (some [])
        = PageResult.notFound ("") :=
  ⟨rfl, by decide, rfl⟩

/-- C4 amended: an absent slug (undefined in JavaScript) normalizes to the
home key in the template renderer, and the home page of the blueprint is
then resolved; in the site renderer an absent slug and an empty slug list
both normalize to the root path. An empty slug list in the template
renderer instead normalizes to the empty-string key. -/
theorem root_path_home_amended (bp : SiteBlueprint) :
    pageKeyOfSlug none = "home"
    ∧ Page bp none
        = PageResult.main (((bp.pages.lookup ("home")).getD []).map renderComponent)
    ∧ pagePathOfSlug none = "/"
    ∧ pagePathOfSlug (some []) = "/"
    ∧ pageKeyOfSlug (some []) = "" := by
  refine ⟨rfl, ?_, rfl, rfl, rfl⟩
  simp [Page, pageKeyOfSlug]

/-- C5: one resolution pass leaves the blueprint exactly as it was, and
resolving the same blueprint and slug a second time (on the state the first
pass left behind) produces a structurally identical result, in both the
template renderer and the site renderer. -/
theorem resolve_idempotent_no_mutation
    (bp : SiteBlueprint) (slug : Option (List String)) (pages : List BPage) :
    (resolvePass bp slug).2 = bp
    ∧ (resolvePass (resolvePass bp slug).2 slug).1 = (resolvePass bp slug).1
    ∧ DynamicPage pages slug = DynamicPage pages slug :=
  ⟨rfl, rfl, rfl⟩

/-- C6 counterexample: the property bag is not forwarded verbatim for
unregistered components. The template renderer drops the bag of an unknown
component entirely, delivering only the component_name attribute (the key a
of the original bag is absent from the delivered bag), and the site renderer
adds a componentName key that the original bag did not contain. -/
theorem props_verbatim_counterexample :
    renderComponent ⟨"Mystery", [("a", Value.vStr ("x"))]⟩
        = ⟨"Placeholder", [("component_name", Value.vStr ("Mystery"))]⟩
    ∧ (renderComponent ⟨"Mystery", [("a", Value.vStr ("x"))]⟩).delivered.lookup ("a") = none
    ∧ dynRenderComponent ⟨"Mystery", [("a", Value.vStr ("x"))], "c1"⟩
        = ⟨"Placeholder", [("componentName", Value.vStr ("Mystery")), ("a", Value.vStr ("x"))]⟩
    ∧ ([("a", Value.vStr ("x"))] : Props).lookup ("componentName") = none :=
  ⟨rfl, rfl, rfl, rfl⟩

/-- C6 amended: for every registered component both dispatchers forward the
property bag verbatim, with no key added, removed, renamed or validated; for
an unregistered component the template dispatcher replaces the bag by the
single component_name attribute, while the site dispatcher forwards the bag
with an extra componentName attribute prepended. -/
theorem props_verbatim_amended
    (c : ComponentData) (d e : BComponent) (f : ComponentData)
    (h1 : componentMap.contains c.component_name = true)
    (h2 : dynComponentCases.contains d.component_name = true)
    (h3 : dynComponentCases.contains e.component_name = false)
    (h4 : componentMap.contains f.component_name = false) :
    renderComponent c = ⟨c.component_name, c.props⟩
    ∧ dynRenderComponent d = ⟨d.component_name, d.props⟩
    ∧ renderComponent f = ⟨"Placeholder", [("component_name", Value.vStr f.component_name)]⟩
    ∧ dynRenderComponent e
        = ⟨"Placeholder", ("componentName", Value.vStr e.component_name) :: e.props⟩ := by
  have h1m : c.component_name ∈ componentMap := by simpa using h1
  have h2m : d.component_name ∈ dynComponentCases := by simpa using h2
  have h3m : e.component_name ∉ dynComponentCases := by simpa using h3
  have h4m : f.component_name ∉ componentMap := by simpa using h4
  refine ⟨?_, ?_, ?_, ?_⟩
  · simp [renderComponent, h1m]
  · simp [dynRenderComponent, h2m]
  · simp [renderComponent, h4m]
  · simp [dynRenderComponent, h3m]

/-- Witness for the amended C6: a registered template component and a
registered site component keep their bags unchanged; unregistered ones take
the placeholder path with the stated delivered bags. -/
theorem props_verbatim_amended_witness :
    renderComponent ⟨"HeroSection1", [("a", Value.vStr ("x"))]⟩
        = ⟨"HeroSection1", [("a", Value.vStr ("x"))]⟩
    ∧ dynRenderComponent ⟨"Sign Up", [("b", Value.vNum 2)], "c1"⟩
        = ⟨"Sign Up", [("b", Value.vNum 2)]⟩
    ∧ renderComponent ⟨"Mystery2", [("d", Value.vNull)]⟩
        = ⟨"Placeholder", [("component_name", Value.vStr ("Mystery2"))]⟩
    ∧ dynRenderComponent ⟨"Widget2", [("c", Value.vBool true)], "c2"⟩
        = ⟨"Placeholder", [("componentName", Value.vStr ("Widget2")), ("c", Value.vBool true)]⟩ :=
  props_verbatim_amended
    ⟨"HeroSection1", [("a", Value.vStr ("x"))]⟩
    ⟨"Sign Up", [("b", Value.vNum 2)], "c1"⟩
    ⟨"Widget2", [("c", Value.vBool true)], "c2"⟩
    ⟨"Mystery2", [("d", Value.vNull)]⟩
    rfl rfl rfl rfl

/-- C7 counterexample: the name Button is not a key of componentMap (the
registry holds exactly HeroSection1, FeatureGrid3 and ContactForm1), so
resolving the pricing page of the stated example yields a Placeholder node
for Button followed by a Placeholder node for Mystery, not a registered
button node followed by a placeholder. -/
theorem pricing_example_counterexample :
    componentMap.contains ("Button") = false
    ∧ Page ⟨"Acme", "logistics",
          [("pricing",
            [⟨"Button", [("label", Value.vStr ("Buy"))]⟩, ⟨"Mystery", []⟩])]⟩
        (some ["pricing"])
        = PageResult.main
            [⟨"Placeholder", [("component_name", Value.vStr ("Button"))]⟩,
             ⟨"Placeholder", [("component_name", Value.vStr ("Mystery"))]⟩] :=
  ⟨rfl, rfl⟩

/-- C7 amended: with the registered name HeroSection1 in place of Button
(componentMap contains no Button key), a blueprint with one pricing page
holding exactly those two components resolves to exactly two nodes in
order: the registered HeroSection1 node with its bag, then a Placeholder
node named Mystery. -/
theorem pricing_example_amended :
    componentMap.contains ("HeroSection1") = true
    ∧ componentMap.contains ("Mystery") = false
    ∧ Page ⟨"Acme", "logistics",
          [("pricing",
            [⟨"HeroSection1", [("label", Value.vStr ("Buy"))]⟩, ⟨"Mystery", []⟩])]⟩
        (some ["pricing"])
        = PageResult.main
            [⟨"HeroSection1", [("label", Value.vStr ("Buy"))]⟩,
             ⟨"Placeholder", [("component_name", Value.vStr ("Mystery"))]⟩] :=
  ⟨rfl, rfl, rfl⟩

/-- C8 counterexample: for a blueprint whose home page is nonempty,
generateStaticParams emits the empty slug list for the home key, but
feeding that empty list back into Page joins it to the empty-string key
(an empty array is truthy in JavaScript) and yields the 404 outcome, not
the home component list. -/
theorem static_params_roundtrip_counterexample :
    generateStaticParams ⟨"Acme", "logistics", [("home", [⟨"HeroSection1", []⟩])]⟩ = [[]]
    ∧ Page ⟨"Acme", "logistics", [("home", [⟨"HeroSection1", []⟩])]⟩ (some [])
        = PageResult.notFound ("") :=
  ⟨rfl, rfl⟩

/-- C8 amended: for every non-home page key with a nonempty component list,
the singleton slug that generateStaticParams emits for it is resolved by
Page to exactly that component list; the empty slug emitted for the home key
resolves the home page only when it reaches Page as an absent slug (as the
hosting framework delivers the root request), not as a literal empty list. -/
theorem static_params_roundtrip_amended
    (bp : SiteBlueprint) (k : String) (comps homeComps : List ComponentData)
    (hm : (k, comps) ∈ bp.pages)
    (h1 : bp.pages.lookup k = some comps)
    (h2 : k ≠ "home")
    (h3 : comps ≠ [])
    (h4 : bp.pages.lookup ("home") = some homeComps) :
    [k] ∈ generateStaticParams bp
    ∧ Page bp (some [k]) = PageResult.main (comps.map renderComponent)
    ∧ Page bp none = PageResult.main (homeComps.map renderComponent) := by
  refine ⟨?_, ?_, ?_⟩
  · have hmem := List.mem_map_of_mem (fun p => if p.1 = "home" then [] else [p.1]) hm
    simpa [generateStaticParams, h2] using hmem
  · simp [Page, pageKeyOfSlug, joinSlug, h1, h2, List.length_eq_zero, h3]
  · simp [Page, pageKeyOfSlug, h4]

/-- Witness for the amended C8: a blueprint with a home page and an about
page; the emitted slug about round-trips to the about components, and the
root request (absent slug) resolves the home components. -/
theorem static_params_roundtrip_amended_witness :
    ["about"] ∈ generateStaticParams
        ⟨"Acme", "logistics",
          [("home", [⟨"FeatureGrid3", []⟩]), ("about", [⟨"HeroSection1", []⟩])]⟩
    ∧ Page ⟨"Acme", "logistics",
          [("home", [⟨"FeatureGrid3", []⟩]), ("about", [⟨"HeroSection1", []⟩])]⟩
        (some ["about"])
        = PageResult.main [⟨"HeroSection1", []⟩]
    ∧ Page ⟨"Acme", "logistics",
          [("home", [⟨"FeatureGrid3", []⟩]), ("about", [⟨"HeroSection1", []⟩])]⟩
        none
        = PageResult.main [⟨"FeatureGrid3", []⟩] :=
  static_params_roundtrip_amended
    ⟨"Acme", "logistics",
      [("home", [⟨"FeatureGrid3", []⟩]), ("about", [⟨"HeroSection1", []⟩])]⟩
    "about" [⟨"HeroSection1", []⟩] [⟨"FeatureGrid3", []⟩]
    (List.mem_cons_of_mem _ (List.mem_cons_self _ _))
    rfl (by decide) (List.cons_ne_nil _ _) rfl

/-- C9: getBlueprint is a total function of its effectful surroundings and
never throws. An unset SITE_DIRECTORY (and, by JavaScript falsiness, an
empty one) yields the configuration-error blueprint, whose home page is a
single component named Placeholder whose bag names the configuration error;
a failing read or a failing parse yields the fallback blueprint, whose home
page is empty; a successful read and parse yields the parsed contents. -/
theorem getBlueprint_total
    (env : BlueprintEnv) (d contents msgA msgB : String) (bp : SiteBlueprint) :
    (env.siteDirectory = none → getBlueprint env = configErrorBlueprint)
    ∧ (env.siteDirectory = some "" → getBlueprint env = configErrorBlueprint)
    ∧ (env.siteDirectory = some d → d ≠ "" →
        env.readBlueprintFile d = .error msgA →
        getBlueprint env = fallbackBlueprint d)
    ∧ (env.siteDirectory = some d → d ≠ "" →
        env.readBlueprintFile d = .ok contents →
        env.parseJSON contents = .error msgB →
        getBlueprint env = fallbackBlueprint d)
    ∧ (env.siteDirectory = some d → d ≠ "" →
        env.readBlueprintFile d = .ok contents →
        env.parseJSON contents = .ok bp →
        getBlueprint env = bp)
    ∧ configErrorBlueprint.pages.lookup ("home")
        = some [⟨"Placeholder",
            [("component_name",
              Value.vStr
                ("FATAL ERROR: SITE_DIRECTORY environment variable is not set. Please configure the server."))]⟩]
    ∧ (fallbackBlueprint d).pages.lookup ("home") = some [] := by
  refine ⟨?_, ?_, ?_, ?_, ?_, rfl, rfl⟩
  · intro h; simp [getBlueprint, h]
  · intro h; simp [getBlueprint, h]
  · intro h hne hread; simp [getBlueprint, h, hne, hread]
  · intro h hne hread hparse; simp [getBlueprint, h, hne, hread, hparse]
  · intro h hne hread hparse; simp [getBlueprint, h, hne, hread, hparse]

/-- Witness for C9: three concrete environments exercising the unset
variable, the failing read, and the successful read and parse. -/
theorem getBlueprint_total_witness :
    getBlueprint ⟨none, fun _ => .error ("e"), fun _ => .error ("e")⟩
        = configErrorBlueprint
    ∧ getBlueprint ⟨some ("site"), fun _ => .error ("boom"), fun _ => .error ("e")⟩
        = fallbackBlueprint ("site")
    ∧ getBlueprint
          ⟨some ("site"), fun _ => .ok ("data"), fun _ => .ok ⟨"C", "I", []⟩⟩
        = ⟨"C", "I", []⟩ :=
  ⟨(getBlueprint_total ⟨none, fun _ => .error ("e"), fun _ => .error ("e")⟩
      "site" "data" "e" "e" ⟨"C", "I", []⟩).1 rfl,
   ((getBlueprint_total ⟨some ("site"), fun _ => .error ("boom"), fun _ => .error ("e")⟩
      "site" "data" "boom" "e" ⟨"C", "I", []⟩).2.2.1) rfl (by decide) rfl,
   ((getBlueprint_total ⟨some ("site"), fun _ => .ok ("data"), fun _ => .ok ⟨"C", "I", []⟩⟩
      "site" "data" "e" "e" ⟨"C", "I", []⟩).2.2.2.2.1) rfl (by decide) rfl rfl⟩

/-- C10: a page key that is present in the blueprint but maps to an empty
component list and differs from home yields the 404 outcome, even though
the page exists; and whenever the lookup key is the home key, Page never
yields the 404 outcome, whether or not home is a key of the blueprint. -/
theorem empty_page_404_home_never
    (bp : SiteBlueprint) (k : String) (slug : Option (List String))
    (h1 : bp.pages.lookup k = some [])
    (h2 : k ≠ "home")
    (h3 : pageKeyOfSlug slug = "home") :
    Page bp (some [k]) = PageResult.notFound k
    ∧ (Page bp slug).isNotFound = false := by
  constructor
  · simp [Page, pageKeyOfSlug, joinSlug, h1, h2]
  · simp [Page, h3, PageResult.isNotFound]

/-- Witness for C10: the page legal exists with an empty component list and
yields the 404 outcome; the root request (home key) against the same
blueprint, which has no home key, is not the 404 outcome. -/
theorem empty_page_404_home_never_witness :
    Page ⟨"Acme", "logistics", [("legal", [])]⟩ (some ["legal"])
        = PageResult.notFound ("legal")
    ∧ (Page ⟨"Acme", "logistics", [("legal", [])]⟩ none).isNotFound = false :=
  empty_page_404_home_never ⟨"Acme", "logistics", [("legal", [])]⟩ "legal" none
    rfl (by decide) rfl

end SiteAgent
